import Mathlib

/-!
Verification of the cad-stl-analyzer core: a shallow embedding of the
geometry engine (`src/analyzer.py`), the mass/time estimators
(`src/gui.py`) and the unit-conversion layer, with machine doubles
idealized as real numbers.
-/

noncomputable section

/-- A 3D vertex with real coordinates (the source promotes all
coordinates to double precision on load). -/
structure Vec3 where
  x : ℝ
  y : ℝ
  z : ℝ

/-- Dot product of two 3D vectors. -/
def Vec3.dot (a b : Vec3) : ℝ := a.x * b.x + a.y * b.y + a.z * b.z

/-- Cross product of two 3D vectors (`np.cross`). -/
def Vec3.cross (a b : Vec3) : Vec3 :=
  ⟨a.y * b.z - a.z * b.y, a.z * b.x - a.x * b.z, a.x * b.y - a.y * b.x⟩

/-- Componentwise vector subtraction. -/
def Vec3.sub (a b : Vec3) : Vec3 := ⟨a.x - b.x, a.y - b.y, a.z - b.z⟩

/-- Squared Euclidean norm of a 3D vector. -/
def Vec3.normSq (a : Vec3) : ℝ := a.x ^ 2 + a.y ^ 2 + a.z ^ 2

/-- Euclidean norm of a 3D vector (`np.linalg.norm`). -/
def Vec3.norm (a : Vec3) : ℝ := Real.sqrt a.normSq

/-- A triangle of an STL mesh: an ordered triple of vertices
(one row of `stl_mesh.vectors`). -/
structure Triangle where
  v0 : Vec3
  v1 : Vec3
  v2 : Vec3

/-- A mesh is the ordered list of its triangles (`stl_mesh.vectors`). -/
abbrev Mesh := List Triangle

/-- All vertices of all triangles of a mesh, in order. -/
def meshVerts (m : Mesh) : List Vec3 :=
  m.foldr (fun t acc => t.v0 :: t.v1 :: t.v2 :: acc) []

/-- Componentwise minimum of coordinate `f` over all vertices
(`stl_mesh.vectors.min(axis=(0, 1))`); junk value 0 on the empty mesh,
where the source raises instead. -/
def coordMin (f : Vec3 → ℝ) (m : Mesh) : ℝ :=
  match meshVerts m with
  | [] => 0
  | v :: vs => vs.foldl (fun acc w => min acc (f w)) (f v)

/-- Componentwise maximum of coordinate `f` over all vertices
(`stl_mesh.vectors.max(axis=(0, 1))`); junk value 0 on the empty mesh. -/
def coordMax (f : Vec3 → ℝ) (m : Mesh) : ℝ :=
  match meshVerts m with
  | [] => 0
  | v :: vs => vs.foldl (fun acc w => max acc (f w)) (f v)

/-- Bounding-box extents `dimensions = max_coords - min_coords`,
as the list `[dx, dy, dz]`. -/
def dimensions (m : Mesh) : List ℝ :=
  [coordMax Vec3.x m - coordMin Vec3.x m,
   coordMax Vec3.y m - coordMin Vec3.y m,
   coordMax Vec3.z m - coordMin Vec3.z m]

instance : DecidableRel (fun a b : ℝ => b ≤ a) :=
  fun a b => inferInstanceAs (Decidable (b ≤ a))

instance : IsTotal ℝ (fun a b : ℝ => b ≤ a) := ⟨fun a b => le_total b a⟩

instance : IsTrans ℝ (fun a b : ℝ => b ≤ a) :=
  ⟨fun _ _ _ h1 h2 => le_trans h2 h1⟩

/-- The bounding-box extents sorted descending
(`sorted(dimensions, reverse=True)`). -/
def sortedDims (m : Mesh) : List ℝ :=
  List.insertionSort (fun a b : ℝ => b ≤ a) (dimensions m)

/-- Signed volume of the tetrahedron spanned by the origin and one
triangle: `(v0 · (v1 × v2)) / 6`. Modelled from the spec: the source
obtains the signed volume from the external numpy-stl call
`stl_mesh.get_mass_properties()`, described in the spec as the
signed-tetrahedron (divergence-theorem) method with the origin as
reference point. -/
def tetVolume (t : Triangle) : ℝ := Vec3.dot t.v0 (Vec3.cross t.v1 t.v2) / 6

/-- Signed mesh volume: sum of the signed tetrahedron volumes over all
triangles. Modelled from the spec (see `tetVolume`). -/
def signedVolume (m : Mesh) : ℝ := (m.map tetVolume).sum

/-- Area of one triangle: `0.5 * |(v1 - v0) x (v2 - v0)|`. -/
def triangleArea (t : Triangle) : ℝ :=
  0.5 * Vec3.norm (Vec3.cross (Vec3.sub t.v1 t.v0) (Vec3.sub t.v2 t.v0))

/-- Total surface area: sum of the areas of all triangles
(`np.sum(areas)`). -/
def surfaceArea (m : Mesh) : ℝ := (m.map triangleArea).sum

/-- A triangle with its second and third vertices swapped, which flips
the normal produced by the right-hand rule. -/
def flipTriangle (t : Triangle) : Triangle := ⟨t.v0, t.v2, t.v1⟩

/-- The mesh with every triangle's normal flipped (inward-facing
normal convention). -/
def flipMesh (m : Mesh) : Mesh := m.map flipTriangle

/-- The `AnalysisResult` dataclass of `src/analyzer.py`. -/
structure AnalysisResult where
  filename : String
  length : ℝ
  width : ℝ
  height : ℝ
  volume : ℝ
  surface_area : ℝ
  triangle_count : ℕ
  is_watertight : Prop

/-- The geometry engine `CADAnalyzer.analyze_stl`, after a successful
load: bounding box sorted descending, absolute signed-tetrahedron
volume, summed triangle areas, triangle count, and the watertightness
heuristic `volume > 0 and surface_area > 0`. -/
def analyze (filename : String) (m : Mesh) : AnalysisResult :=
  { filename := filename
    length := (sortedDims m).getD 0 0
    width := (sortedDims m).getD 1 0
    height := (sortedDims m).getD 2 0
    volume := |signedVolume m|
    surface_area := surfaceArea m
    triangle_count := m.length
    is_watertight := 0 < |signedVolume m| ∧ 0 < surfaceArea m }

/-- `AnalysisResult.get_mass`: volume converted from mm³ to cm³ and
multiplied by the density in g/cm³ (default density 1.24 in the
source). -/
def getMass (r : AnalysisResult) (density : ℝ) : ℝ :=
  r.volume / 1000 * density

/-- Conversion constant: 1 mm = 0.0393701 in. -/
def MM_TO_IN : ℝ := 0.0393701

/-- Conversion constant: 1 mm³ = 0.0000610237 in³. -/
def MM3_TO_IN3 : ℝ := 0.0000610237

/-- Conversion constant: 1 mm² = 0.00155 in². -/
def MM2_TO_IN2 : ℝ := 0.00155

/-- `AnalysisResult.to_imperial`: the returned dictionary, whose keys
are exactly the `AnalysisResult` fields, with lengths, volume and area
scaled by the fixed constants and the other fields passed through. -/
def toImperial (r : AnalysisResult) : AnalysisResult :=
  { filename := r.filename
    length := r.length * MM_TO_IN
    width := r.width * MM_TO_IN
    height := r.height * MM_TO_IN
    volume := r.volume * MM3_TO_IN3
    surface_area := r.surface_area * MM2_TO_IN2
    triangle_count := r.triangle_count
    is_watertight := r.is_watertight }

/-- `CADAnalyzerApp._calculate_print_mass` of `src/gui.py`: shell and
infill modelled separately, falling back to the solid mass at 100%
infill or more. -/
def calculatePrintMass (r : AnalysisResult) (density : ℝ) (infill_pct : ℤ)
    (wall_count : ℤ) (top_bottom_layers : ℤ)
    (layer_height : ℝ) (wall_width : ℝ) : ℝ :=
  if 100 ≤ infill_pct then getMass r density
  else
    let volume_mm3 := r.volume
    let surface_area_mm2 := r.surface_area
    let wall_thickness := (wall_count : ℝ) * wall_width
    let shell_volume := surface_area_mm2 * wall_thickness
    let estimated_footprint := surface_area_mm2 / 6
    let top_bottom_volume :=
      estimated_footprint * layer_height * (top_bottom_layers : ℝ) * 2
    let solid_shell_volume :=
      min (shell_volume + top_bottom_volume) (volume_mm3 * 0.95)
    let infill_volume := max 0 (volume_mm3 - solid_shell_volume)
    let shell_mass := solid_shell_volume / 1000 * density
    let infill_mass := infill_volume / 1000 * density * ((infill_pct : ℝ) / 100)
    shell_mass + infill_mass

/-- `CADAnalyzerApp._estimate_print_time` of `src/gui.py`: extrusion
time from an infill-adjusted volume, plus layer-change and travel
overheads, in minutes. The `travel_speed` argument is accepted but
unused, exactly as in the source. -/
def estimatePrintTime (r : AnalysisResult) (infill_pct : ℤ)
    (layer_height : ℝ) (print_speed : ℝ) (travel_speed : ℝ) : ℝ :=
  let volume_mm3 := r.volume
  let height_mm := r.height
  let effective_volume := volume_mm3 * (0.3 + 0.7 * ((infill_pct : ℝ) / 100))
  let nozzle_width : ℝ := 0.4
  let extrusion_rate := layer_height * nozzle_width * print_speed
  let extrusion_time_sec := effective_volume / extrusion_rate
  let num_layers := height_mm / layer_height
  let layer_change_time_sec := num_layers * 1.5
  let travel_time_sec := extrusion_time_sec * 0.25
  (extrusion_time_sec + layer_change_time_sec + travel_time_sec) / 60

/-- An input file, abstracted to its name and its parse outcome.
Modelled from the spec: parsing happens in the external numpy-stl call
`mesh.Mesh.from_file`; `content = none` stands for a file that is
missing, unreadable or of unsupported format. -/
structure StlFile where
  name : String
  content : Option Mesh

/-- `CADAnalyzer.analyze_stl` end to end: any exception during load or
analysis is caught and `None` is returned. A zero-triangle mesh fails
because the componentwise reduction `vectors.min(axis=(0, 1))` raises
on an empty array; a non-empty mesh is analyzed. -/
def analyzeStl (f : StlFile) : Option AnalysisResult :=
  match f.content with
  | none => none
  | some [] => none
  | some (t :: ts) => some (analyze f.name (t :: ts))

/-- `CADAnalyzer.analyze_multiple`: analyze each file in order,
appending the result when the analysis succeeds and skipping the file
otherwise. -/
def analyzeMultiple (files : List StlFile) : List AnalysisResult :=
  files.foldl
    (fun results f =>
      match analyzeStl f with
      | some r => results ++ [r]
      | none => results)
    []

end

/-! Helper lemmas shared by the claim theorems. -/

theorem foldl_min_le_foldl_max (f : Vec3 → ℝ) (vs : List Vec3) (a b : ℝ)
    (h : a ≤ b) :
    vs.foldl (fun acc w => min acc (f w)) a ≤
      vs.foldl (fun acc w => max acc (f w)) b := by
  induction vs generalizing a b with
  | nil => exact h
  | cons v vs ih =>
      exact ih _ _ (le_trans (min_le_left _ _) (le_trans h (le_max_left _ _)))

theorem coordMin_le_coordMax (f : Vec3 → ℝ) (m : Mesh) :
    coordMin f m ≤ coordMax f m := by
  unfold coordMin coordMax
  cases meshVerts m with
  | nil => exact le_refl 0
  | cons v vs => exact foldl_min_le_foldl_max f vs _ _ (le_refl (f v))

theorem dimensions_nonneg (m : Mesh) : ∀ d ∈ dimensions m, 0 ≤ d := by
  intro d hd
  simp only [dimensions, List.mem_cons, List.not_mem_nil, or_false] at hd
  rcases hd with h | h | h <;>
    exact h ▸ sub_nonneg.mpr (coordMin_le_coordMax _ m)

theorem sortedDims_length (m : Mesh) : (sortedDims m).length = 3 := by
  rw [sortedDims, (List.perm_insertionSort _ (dimensions m)).length_eq]
  rfl

theorem list_length_three {l : List ℝ} (h : l.length = 3) :
    ∃ a b c, l = [a, b, c] := by
  cases l with
  | nil => simp at h
  | cons a l1 =>
    cases l1 with
    | nil => simp at h
    | cons b l2 =>
      cases l2 with
      | nil => simp at h
      | cons c l3 =>
        cases l3 with
        | nil => exact ⟨a, b, c, rfl⟩
        | cons d l4 => simp at h

/-- Claim C1: the reported volume is the absolute value of the
signed-tetrahedron sum over all triangles, hence non-negative for
every input mesh. -/
theorem analyze_volume_spec (filename : String) (m : Mesh) :
    (analyze filename m).volume =
      |(m.map (fun t => Vec3.dot t.v0 (Vec3.cross t.v1 t.v2) / 6)).sum| ∧
    0 ≤ (analyze filename m).volume :=
  ⟨rfl, abs_nonneg _⟩

/-- Claim C3: the watertightness flag holds exactly when the computed
volume and the computed surface area are both strictly positive. -/
theorem analyze_watertight_iff (filename : String) (m : Mesh) :
    (analyze filename m).is_watertight ↔
      0 < (analyze filename m).volume ∧ 0 < (analyze filename m).surface_area :=
  Iff.rfl

theorem triangleArea_flip (t : Triangle) :
    triangleArea (flipTriangle t) = triangleArea t := by
  unfold triangleArea flipTriangle Vec3.norm
  congr 2
  simp only [Vec3.normSq, Vec3.cross, Vec3.sub]
  ring

/-- Claim C2: the reported surface area is the sum over all triangles
of half the magnitude of the edge cross product, is unchanged when
every triangle's normal is flipped, and is non-negative for every
input mesh. -/
theorem analyze_surface_area_spec (filename : String) (m : Mesh) :
    (analyze filename m).surface_area =
      (m.map (fun t =>
        0.5 * Vec3.norm (Vec3.cross (Vec3.sub t.v1 t.v0) (Vec3.sub t.v2 t.v0)))).sum ∧
    (analyze filename (flipMesh m)).surface_area =
      (analyze filename m).surface_area ∧
    0 ≤ (analyze filename m).surface_area := by
  refine ⟨rfl, ?_, ?_⟩
  · show surfaceArea (flipMesh m) = surfaceArea m
    simp [surfaceArea, flipMesh, List.map_map, Function.comp_def, triangleArea_flip]
  · show 0 ≤ surfaceArea m
    apply List.sum_nonneg
    intro x hx
    simp only [surfaceArea, List.mem_map] at hx
    obtain ⟨t, _, rfl⟩ := hx
    exact mul_nonneg (by norm_num) (Real.sqrt_nonneg _)

/-- Claim C4: the reported length, width and height are exactly the
componentwise bounding-box extents sorted in descending order, so
length ≥ width ≥ height ≥ 0 holds for every analyzed mesh. -/
theorem analyze_dims_spec (filename : String) (m : Mesh) :
    [(analyze filename m).length, (analyze filename m).width,
      (analyze filename m).height] = sortedDims m ∧
    List.Perm [(analyze filename m).length, (analyze filename m).width,
      (analyze filename m).height] (dimensions m) ∧
    (analyze filename m).length ≥ (analyze filename m).width ∧
    (analyze filename m).width ≥ (analyze filename m).height ∧
    (analyze filename m).height ≥ 0 := by
  obtain ⟨a, b, c, h3⟩ := list_length_three (sortedDims_length m)
  have hperm : List.Perm (sortedDims m) (dimensions m) :=
    List.perm_insertionSort _ _
  have hsort : List.Sorted (fun a b : ℝ => b ≤ a) (sortedDims m) :=
    List.sorted_insertionSort _ _
  rw [h3] at hperm hsort
  have hl : (analyze filename m).length = a := by
    rw [show (analyze filename m).length = (sortedDims m).getD 0 0 from rfl, h3]
    rfl
  have hw : (analyze filename m).width = b := by
    rw [show (analyze filename m).width = (sortedDims m).getD 1 0 from rfl, h3]
    rfl
  have hh : (analyze filename m).height = c := by
    rw [show (analyze filename m).height = (sortedDims m).getD 2 0 from rfl, h3]
    rfl
  simp only [List.sorted_cons, List.mem_cons, List.not_mem_nil, or_false,
    List.mem_singleton, forall_eq_or_imp, forall_eq, List.sorted_nil] at hsort
  have hc : 0 ≤ c := dimensions_nonneg m c (hperm.subset (by simp))
  rw [hl, hw, hh, h3]
  exact ⟨rfl, hperm, hsort.1.1, hsort.2.1, hc⟩

/-- Claim C5: the print-mass estimate equals the solid mass when the
infill fraction is at least 100, and otherwise follows the
shell/top-bottom/infill decomposition with the 95% volume cap. -/
theorem calculatePrintMass_spec (r : AnalysisResult) (density : ℝ)
    (infill_pct wall_count top_bottom_layers : ℤ)
    (layer_height wall_width : ℝ) :
    calculatePrintMass r density infill_pct wall_count top_bottom_layers
        layer_height wall_width =
      if 100 ≤ infill_pct then r.volume / 1000 * density
      else
        min (r.surface_area * (wall_count : ℝ) * wall_width
              + r.surface_area / 6 * layer_height * (top_bottom_layers : ℝ) * 2)
            (0.95 * r.volume) / 1000 * density
          + max 0 (r.volume -
              min (r.surface_area * (wall_count : ℝ) * wall_width
                    + r.surface_area / 6 * layer_height * (top_bottom_layers : ℝ) * 2)
                  (0.95 * r.volume)) / 1000 * density
            * ((infill_pct : ℝ) / 100) := by
  unfold calculatePrintMass getMass
  split
  · rfl
  · dsimp only
    rw [show r.volume * 0.95 = 0.95 * r.volume from by ring,
        show r.surface_area * ((wall_count : ℝ) * wall_width)
          = r.surface_area * (wall_count : ℝ) * wall_width from by ring]

/-- Claim C6: the print-time estimate in minutes is
(extrusion time + layer-change overhead + travel overhead) / 60 with
effective volume scaled by 0.3 + 0.7·infill/100, extrusion rate
layer_height · 0.4 · print_speed, 1.5 s per layer and travel overhead
25% of extrusion time. -/
theorem estimatePrintTime_spec (r : AnalysisResult) (infill_pct : ℤ)
    (layer_height print_speed travel_speed : ℝ) :
    estimatePrintTime r infill_pct layer_height print_speed travel_speed =
      (r.volume * (0.3 + 0.7 * ((infill_pct : ℝ) / 100))
          / (layer_height * 0.4 * print_speed)
        + r.height / layer_height * 1.5
        + r.volume * (0.3 + 0.7 * ((infill_pct : ℝ) / 100))
            / (layer_height * 0.4 * print_speed) * 0.25) / 60 := rfl

/-- Claim C10: the print-time estimate does not depend on the travel
speed argument at all. -/
theorem estimatePrintTime_ignores_travel_speed (r : AnalysisResult)
    (infill_pct : ℤ) (layer_height print_speed ts1 ts2 : ℝ) :
    estimatePrintTime r infill_pct layer_height print_speed ts1 =
      estimatePrintTime r infill_pct layer_height print_speed ts2 := rfl

theorem roundtrip_exact (x c : ℝ) (hc : c ≠ 0) :
    |x * c / c - x| ≤ 1e-4 * |x| := by
  rw [mul_div_cancel_right₀ _ hc, sub_self, abs_zero]
  positivity

/-- Claim C7: imperial conversion scales lengths by 0.0393701, area by
0.00155 and volume by 0.0000610237, preserves filename, triangle count
and the watertight flag, and dividing each converted value by its
constant reproduces the original within 1e-4 relative tolerance. -/
theorem toImperial_spec (r : AnalysisResult) :
    (toImperial r).length = r.length * MM_TO_IN ∧
    (toImperial r).width = r.width * MM_TO_IN ∧
    (toImperial r).height = r.height * MM_TO_IN ∧
    (toImperial r).volume = r.volume * MM3_TO_IN3 ∧
    (toImperial r).surface_area = r.surface_area * MM2_TO_IN2 ∧
    (toImperial r).filename = r.filename ∧
    (toImperial r).triangle_count = r.triangle_count ∧
    ((toImperial r).is_watertight ↔ r.is_watertight) ∧
    |(toImperial r).length / MM_TO_IN - r.length| ≤ 1e-4 * |r.length| ∧
    |(toImperial r).width / MM_TO_IN - r.width| ≤ 1e-4 * |r.width| ∧
    |(toImperial r).height / MM_TO_IN - r.height| ≤ 1e-4 * |r.height| ∧
    |(toImperial r).volume / MM3_TO_IN3 - r.volume| ≤ 1e-4 * |r.volume| ∧
    |(toImperial r).surface_area / MM2_TO_IN2 - r.surface_area|
      ≤ 1e-4 * |r.surface_area| :=
  ⟨rfl, rfl, rfl, rfl, rfl, rfl, rfl, Iff.rfl,
    roundtrip_exact r.length MM_TO_IN (by norm_num [MM_TO_IN]),
    roundtrip_exact r.width MM_TO_IN (by norm_num [MM_TO_IN]),
    roundtrip_exact r.height MM_TO_IN (by norm_num [MM_TO_IN]),
    roundtrip_exact r.volume MM3_TO_IN3 (by norm_num [MM3_TO_IN3]),
    roundtrip_exact r.surface_area MM2_TO_IN2 (by norm_num [MM2_TO_IN2])⟩

/-- Claim C8: a file parsed to zero triangles yields a failure
(`none`), never a successful `AnalysisResult`; every successful result
comes from a non-empty mesh. -/
theorem analyzeStl_zero_triangles (f : StlFile) :
    (f.content = some [] → analyzeStl f = none) ∧
    (∀ r, analyzeStl f = some r → ∃ t ts, f.content = some (t :: ts)) := by
  constructor
  · intro h
    simp [analyzeStl, h]
  · intro r hr
    rcases hfc : f.content with _ | m
    · simp [analyzeStl, hfc] at hr
    · cases m with
      | nil => simp [analyzeStl, hfc] at hr
      | cons t ts => exact ⟨t, ts, rfl⟩

/-- Witness for C8 at concrete files: a zero-triangle file fails and a
one-triangle file analyzes successfully from non-empty content. -/
theorem analyzeStl_zero_triangles_witness :
    analyzeStl ⟨"empty", some []⟩ = none ∧
    ∃ t ts, (StlFile.mk "tri"
      (some [⟨⟨0, 0, 0⟩, ⟨1, 0, 0⟩, ⟨0, 1, 0⟩⟩])).content = some (t :: ts) :=
  ⟨(analyzeStl_zero_triangles ⟨"empty", some []⟩).1 rfl,
    (analyzeStl_zero_triangles
        (StlFile.mk "tri" (some [⟨⟨0, 0, 0⟩, ⟨1, 0, 0⟩, ⟨0, 1, 0⟩⟩]))).2
      (analyze "tri" [⟨⟨0, 0, 0⟩, ⟨1, 0, 0⟩, ⟨0, 1, 0⟩⟩]) rfl⟩

theorem analyzeMultiple_foldl (files : List StlFile)
    (acc : List AnalysisResult) :
    files.foldl
        (fun results f =>
          match analyzeStl f with
          | some r => results ++ [r]
          | none => results)
        acc
      = acc ++ files.filterMap analyzeStl := by
  induction files generalizing acc with
  | nil => simp
  | cons f fs ih =>
      rcases h : analyzeStl f with _ | r
      · simp [List.foldl_cons, h, ih, List.filterMap_cons]
      · simp [List.foldl_cons, h, ih, List.filterMap_cons]

/-- Claim C9: analyzing many files returns exactly the successful
analyses in input order, and a file whose analysis fails is skipped
without affecting the remaining files. -/
theorem analyzeMultiple_spec (files : List StlFile) :
    analyzeMultiple files = files.filterMap analyzeStl ∧
    ∀ pre f post, analyzeStl f = none →
      analyzeMultiple (pre ++ f :: post) = analyzeMultiple (pre ++ post) := by
  have key : ∀ l : List StlFile, analyzeMultiple l = l.filterMap analyzeStl :=
    fun l => by simpa [analyzeMultiple] using analyzeMultiple_foldl l []
  refine ⟨key files, ?_⟩
  intro pre f post h
  simp [key, List.filterMap_append, List.filterMap_cons, h]

/-- Witness for C9: a single unreadable file is skipped, leaving the
same results as the empty batch. -/
theorem analyzeMultiple_spec_witness :
    analyzeMultiple [⟨"bad", none⟩] = analyzeMultiple [] :=
  (analyzeMultiple_spec []).2 [] ⟨"bad", none⟩ [] rfl
